import Mathlib

/-!
Verification development for the pcb-action repository workflow updater
(src/update-repos.py).  The script keeps a canonical GitHub Actions workflow
file (.github/workflows/pcb-release.yml) synchronized across a fleet of
repositories: it clones/resets each working copy, detects drift by exact byte
comparison, creates a fixed-name feature branch, commits with a fixed service
identity, publishes the branch, reuses or creates a pull request, aggregates
CI check results into (passed, failed, pending) buckets, and auto-merges PRs
whose checks all passed.

The embedding below is shallow: external collaborators (git, the filesystem,
the gh CLI, the GitHub forge) are modelled as explicit inputs, and the
side-effecting steps of the script are modelled as pure functions that return
both the script's result value and a trace of the operations the script
issues.  Small interpreters execute those traces over explicit branch and
working-copy states, so that state-invariant claims (branch cleanliness,
frame conditions) can be proved about the traces the code emits.
-/

set_option autoImplicit false

namespace UpdateRepos

/-! ## String primitives of the script -/

/-- Python's str.upper(), on the ASCII strings the script compares:
uppercase every character. -/
def pyUpper (s : String) : String :=
  String.mk (s.data.map Char.toUpper)

/-- Python's str.strip(): drop leading and trailing whitespace. -/
def pyStrip (s : String) : String :=
  String.mk
    (((s.data.dropWhile Char.isWhitespace).reverse.dropWhile
      Char.isWhitespace).reverse)

/-! ## Check rollup aggregation (check_pr_statuses / merge_passing_prs) -/

/-- One element of a PR's statusCheckRollup JSON array, as read by the script:
a status string and a conclusion string, either of which may be absent.
The script reads them with check.get('status', '') and
check.get('conclusion'). -/
structure Check where
  status : Option String
  conclusion : Option String
deriving DecidableEq

/-- The counter a check contributes to inside the classification chain. -/
inductive Bucket where
  | passed
  | failed
  | pending
deriving DecidableEq

/-- status = check.get('status', '').upper() in the source. -/
def normStatus (c : Check) : String :=
  pyUpper (c.status.getD "")

/-- conclusion = check.get('conclusion', '').upper() if check.get('conclusion')
else None: a missing or empty (falsy) conclusion becomes none, everything
else is uppercased. -/
def normConclusion (c : Check) : Option String :=
  match c.conclusion with
  | some s => if s.isEmpty then none else some (pyUpper s)
  | none => none

/-- The if/elif classification chain the script runs on each check (identical
in check_pr_statuses and merge_passing_prs).  A check whose conclusion falls
outside every branch of the chain increments no counter at all, which the
value none records. -/
def classifyCheck (c : Check) : Option Bucket :=
  let status := normStatus c
  let conclusion := normConclusion c
  if status == "QUEUED" || status == "IN_PROGRESS" || conclusion.isNone then
    some Bucket.pending
  else if conclusion == some "SUCCESS" then
    some Bucket.passed
  else if conclusion == some "FAILURE" || conclusion == some "ERROR" then
    some Bucket.failed
  else if conclusion == some "CANCELLED" || conclusion == some "SKIPPED"
      || conclusion == some "TIMED_OUT" || conclusion == some "NEUTRAL" then
    some Bucket.pending
  else
    none

/-- The three counters the script accumulates over a PR's checks. -/
structure Rollup where
  passed : Nat
  failed : Nat
  pending : Nat
deriving DecidableEq

/-- One loop iteration of the counting loop: increment the counter selected
by the classification chain, or leave all counters unchanged when the chain
selects none of them. -/
def rollupStep (acc : Rollup) (c : Check) : Rollup :=
  match classifyCheck c with
  | some Bucket.passed => { acc with passed := acc.passed + 1 }
  | some Bucket.failed => { acc with failed := acc.failed + 1 }
  | some Bucket.pending => { acc with pending := acc.pending + 1 }
  | none => acc

/-- The counting loop: passed = failed = pending = 0, then one rollupStep per
check, left to right. -/
def rollup (checks : List Check) : Rollup :=
  checks.foldl rollupStep ⟨0, 0, 0⟩

/-! ## Merge gate (merge_passing_prs) -/

/-- The PR fields merge_passing_prs reads from gh pr view:
state, mergeable and the statusCheckRollup array.  The script defaults the
two strings to "UNKNOWN" when absent. -/
structure PRData where
  state : Option String
  mergeable : Option String
  statusCheckRollup : List Check
deriving DecidableEq

/-- Whether merge_passing_prs issues a gh pr merge request for a PR:
it skips the PR when state is not OPEN or mergeable is not MERGEABLE, skips
when the check list is empty, and otherwise merges exactly when
failed == 0 and pending == 0 and passed > 0. -/
def mergeIssued (pr : PRData) : Bool :=
  let state := pyUpper (pr.state.getD "UNKNOWN")
  let mergeable := pyUpper (pr.mergeable.getD "UNKNOWN")
  if state != "OPEN" || mergeable != "MERGEABLE" then
    false
  else if pr.statusCheckRollup.isEmpty then
    false
  else
    let r := rollup pr.statusCheckRollup
    r.failed == 0 && r.pending == 0 && decide (0 < r.passed)

/-- Modelled from the spec's words, for comparison with mergeIssued:
canMerge(PR) = PR.isOpen and PR.isMergeable and failed == 0 and
pending == 0 and passed > 0. -/
def canMergeSpec (pr : PRData) : Prop :=
  pyUpper (pr.state.getD "UNKNOWN") = "OPEN"
  ∧ pyUpper (pr.mergeable.getD "UNKNOWN") = "MERGEABLE"
  ∧ (rollup pr.statusCheckRollup).failed = 0
  ∧ (rollup pr.statusCheckRollup).pending = 0
  ∧ 0 < (rollup pr.statusCheckRollup).passed

/-! ## Drift detection (update_workflow, lines 170-178) -/

/-- Whether update_workflow proceeds past the early up-to-date return:
when the target file exists it runs diff against the canonical source and
returns early exactly when the diff reports no difference (returncode 0,
i.e. byte-identical files); an absent target always proceeds to the update. -/
def needsUpdate (source : List Nat) (target : Option (List Nat)) : Bool :=
  match target with
  | some bytes => !(source == bytes)
  | none => true

/-! ## Branch/commit sequencer (update_workflow) -/

/-- The fixed feature branch name the script uses in every repository. -/
def branch_name : String := "update-workflow-pcb-release"

/-- The fixed commit message of every commit the script creates. -/
def commitMessage : String := "Update GitHub workflow: pcb-release.yml"

/-- The name half of the fixed service identity Diode Robot. -/
def serviceName : String := "Diode Robot"

/-- The email half of the fixed service identity. -/
def serviceEmail : String := "info@diode.run"

/-- Path of the target workflow file inside a working copy, as a list of
path components. -/
def targetPath : List String := [".github", "workflows", "pcb-release.yml"]

/-- Path of the workflows directory the script creates with
mkdir(parents=True, exist_ok=True). -/
def wfDirPath : List String := [".github", "workflows"]

/-- The environment dict the script passes to git commit: os.environ with
GIT_AUTHOR_NAME, GIT_AUTHOR_EMAIL, GIT_COMMITTER_NAME and
GIT_COMMITTER_EMAIL overridden to the fixed service identity. -/
def gitEnv (base : String → Option String) : String → Option String :=
  fun k =>
    if k == "GIT_AUTHOR_NAME" then some serviceName
    else if k == "GIT_AUTHOR_EMAIL" then some serviceEmail
    else if k == "GIT_COMMITTER_NAME" then some serviceName
    else if k == "GIT_COMMITTER_EMAIL" then some serviceEmail
    else base k

/-- The filesystem and git operations update_workflow issues, in order, as a
trace.  Query-only subprocess calls (diff, git diff --cached) are not trace
elements; their observed answers are inputs of the model. -/
inductive Op where
  | mkdirP (dir : List String)
  | checkoutCmd (branch : String)
  | branchDeleteForce (branch : String)
  | checkoutNewBranch (branch : String)
  | copyFile (dst : List String) (bytes : List Nat)
  | addPath (path : String)
  | commitCmd (message authorName authorEmail committerName committerEmail : String)
  | branchDelete (branch : String)
deriving DecidableEq

/-- A working copy: the set of directories and the files (path to bytes)
present on disk. -/
structure WorkingCopy where
  dirs : List (List String)
  files : List (List String × List Nat)
deriving DecidableEq

/-- First file entry with the given path, mirroring an ordinary filesystem
lookup of the target workflow file. -/
def lookupPath (path : List String) (files : List (List String × List Nat)) :
    Option (List Nat) :=
  match files with
  | [] => none
  | f :: fs => if f.1 = path then some f.2 else lookupPath path fs

/-- The result triple update_workflow returns: success flag, status message,
has_changes. -/
structure WorkflowResult where
  ok : Bool
  message : String
  has_changes : Bool
deriving DecidableEq

/-- The inputs of one update_workflow call: the working copy it runs
against, the canonical source bytes, and the stdout the git diff
--name-only --cached query returns after the copy and add steps. -/
structure WorkflowInput where
  wc : WorkingCopy
  sourceBytes : List Nat
  stagedStdout : String
deriving DecidableEq

/-- update_workflow (source lines 160-227) on the success paths: create the
workflows directory; return early when the target file exists and is
byte-identical to the source; otherwise checkout main, force-delete any
stale feature branch (unchecked, absence is non-fatal), create a fresh
feature branch, copy and stage the source file, and either commit with the
fixed service identity when the staged diff is non-empty or revert to main
and delete the feature branch when it is empty.  Returns the script's result
triple together with the trace of operations issued. -/
def update_workflow (operatorEnv : String → Option String)
    (inp : WorkflowInput) : WorkflowResult × List Op :=
  let target := lookupPath targetPath inp.wc.files
  let pre : List Op := [Op.mkdirP wfDirPath]
  if !needsUpdate inp.sourceBytes target then
    (⟨true, "workflow up to date", false⟩, pre)
  else
    let branchOps : List Op :=
      [Op.checkoutCmd "main",
       Op.branchDeleteForce branch_name,
       Op.checkoutNewBranch branch_name,
       Op.copyFile targetPath inp.sourceBytes,
       Op.addPath ".github/workflows/pcb-release.yml"]
    if !(pyStrip inp.stagedStdout).isEmpty then
      let genv := gitEnv operatorEnv
      (⟨true, "workflow updated & committed", true⟩,
       pre ++ branchOps ++
        [Op.commitCmd commitMessage
          ((genv "GIT_AUTHOR_NAME").getD "")
          ((genv "GIT_AUTHOR_EMAIL").getD "")
          ((genv "GIT_COMMITTER_NAME").getD "")
          ((genv "GIT_COMMITTER_EMAIL").getD "")])
    else
      (⟨true, "workflow up to date", false⟩,
       pre ++ branchOps ++ [Op.checkoutCmd "main", Op.branchDelete branch_name])

/-- The commit operations of a trace, with their message and identity
fields. -/
def commitOps (ops : List Op) : List (String × String × String × String × String) :=
  ops.filterMap fun op =>
    match op with
    | Op.commitCmd m an ae cn ce => some (m, an, ae, cn, ce)
    | _ => none

/-! ## Interpreters for traces -/

/-- Local branch state of a working copy: branch name to tip commit id,
the checked-out branch, and a supply of fresh commit ids. -/
structure GitState where
  branches : List (String × Nat)
  current : String
  nextId : Nat
deriving DecidableEq

/-- Tip commit of a local branch. -/
def lookupBranch (b : String) (l : List (String × Nat)) : Option Nat :=
  match l with
  | [] => none
  | p :: ps => if p.1 = b then some p.2 else lookupBranch b ps

/-- Effect of one operation on the local branch state.  Filesystem and index
operations (mkdir, copy, add) do not change branch state.  Branch deletion
removes every entry with the name (git branches form a set); checkout -b
creates the new branch at the tip of the currently checked-out branch;
commit advances the tip of the checked-out branch to a fresh commit id. -/
def gitStep (st : GitState) (op : Op) : GitState :=
  match op with
  | Op.checkoutCmd b => { st with current := b }
  | Op.branchDeleteForce b =>
      { st with branches := st.branches.filter fun p => p.1 != b }
  | Op.branchDelete b =>
      { st with branches := st.branches.filter fun p => p.1 != b }
  | Op.checkoutNewBranch b =>
      { st with
        branches := (b, (lookupBranch st.current st.branches).getD 0) :: st.branches,
        current := b }
  | Op.commitCmd _ _ _ _ _ =>
      { st with
        branches := st.branches.map fun p =>
          if p.1 == st.current then (p.1, st.nextId) else p,
        nextId := st.nextId + 1 }
  | _ => st

/-- Run a trace over the branch state. -/
def execGit (st : GitState) (ops : List Op) : GitState :=
  ops.foldl gitStep st

/-- Add a directory to the set of directories if absent. -/
def addDir (d : List String) (dirs : List (List String)) : List (List String) :=
  if d ∈ dirs then dirs else d :: dirs

/-- mkdir(parents=True, exist_ok=True): create the directory and each of its
ancestors, outermost first, skipping those that already exist. -/
def mkdirParents (d : List String) (dirs : List (List String)) :
    List (List String) :=
  ((List.range d.length).map fun i => d.take (i + 1)).foldl
    (fun ds p => addDir p ds) dirs

/-- Overwrite (or create) a file at a path. -/
def writeFile (path : List String) (bytes : List Nat)
    (files : List (List String × List Nat)) : List (List String × List Nat) :=
  (path, bytes) :: (files.filter fun f => f.1 != path)

/-- Effect of one operation on the working copy's directories and files.
Only the filesystem operations the script issues directly (mkdir and the
file copy) are given working-copy semantics here; the working-tree effects
of branch commands are not modelled, which is exact for traces that touch
no branch, such as the up-to-date trace. -/
def wcStep (wc : WorkingCopy) (op : Op) : WorkingCopy :=
  match op with
  | Op.mkdirP d => { wc with dirs := mkdirParents d wc.dirs }
  | Op.copyFile p bytes => { wc with files := writeFile p bytes wc.files }
  | _ => wc

/-- Run a trace over the working copy. -/
def execWc (wc : WorkingCopy) (ops : List Op) : WorkingCopy :=
  ops.foldl wcStep wc

/-! ## PR reconciler (create_pr_for_changes) -/

/-- The push and PR-creation commands create_pr_for_changes issues. -/
inductive ForgeOp where
  | forcePushWithLease (remote branch : String)
  | createPR (base head title body : String)
deriving DecidableEq

/-- Command line rendering of a forge operation, mirroring the argv lists
the script passes to subprocess.run. -/
def renderForgeOp : ForgeOp → List String
  | ForgeOp.forcePushWithLease remote branch =>
      ["git", "push", "--force-with-lease", remote, branch]
  | ForgeOp.createPR base head title body =>
      ["gh", "pr", "create", "--base", base, "--head", head,
       "--title", title, "--body", body]

/-- Whether a forge operation is a push. -/
def isPushOp : ForgeOp → Bool
  | ForgeOp.forcePushWithLease _ _ => true
  | _ => false

/-- Whether a forge operation creates a pull request. -/
def isCreateOp : ForgeOp → Bool
  | ForgeOp.createPR _ _ _ _ => true
  | _ => false

/-- The collaborator answers one create_pr_for_changes call observes:
the outcome of the git diff of the local feature branch against its remote
counterpart (an error when the remote branch does not exist or the diff
fails), the forge's list of open PRs as (head branch, url) pairs, and the
url the forge would assign to a newly created PR. -/
structure PREnv where
  remoteDiff : Except Unit String
  openPRs : List (String × String)
  createdUrl : String

/-- has_changes in create_pr_for_changes: the stripped stdout of the
branch-vs-remote diff is non-empty, and any diff failure (remote branch
absent or other error) counts as having changes. -/
def branchDiffers (d : Except Unit String) : Bool :=
  match d with
  | Except.ok out => !(pyStrip out).isEmpty
  | Except.error _ => true

/-- The gh pr list --head branch_name query: urls of the open PRs whose head
is the reserved branch name, in forge order. -/
def listOpenByHead (env : PREnv) : List String :=
  (env.openPRs.filter fun pr => pr.1 == branch_name).map Prod.snd

/-- create_pr_for_changes (source lines 229-281) on the success paths:
force-push the branch (with lease) only when it differs from its remote
counterpart, then reuse the first existing open PR with the reserved head
branch, appending a parenthetical status note to its url, or create a new PR
with the fixed title and body when none exists.  Returns the script's
(success, message) pair together with the forge operations issued. -/
def create_pr_for_changes (env : PREnv) : (Bool × String) × List ForgeOp :=
  let has_changes := branchDiffers env.remoteDiff
  let pushOps : List ForgeOp :=
    if has_changes then [ForgeOp.forcePushWithLease "origin" branch_name] else []
  match listOpenByHead env with
  | pr_url :: _ =>
      let status_msg :=
        if has_changes then "(updated existing PR)" else "(existing PR, no changes)"
      ((true, pr_url ++ " " ++ status_msg), pushOps)
  | [] =>
      ((true, env.createdUrl),
       pushOps ++
        [ForgeOp.createPR "main" branch_name commitMessage
          "This PR updates the pcb-release.yml workflow file to the latest version."])

/-- clean_url = pr_url.split(' ')[0]: the characters before the first space,
which is how the script recovers the PR url from a reconciler message. -/
def cleanUrl (s : String) : String :=
  String.mk (s.data.takeWhile fun c => c != ' ')

/-! ## Pipeline boundary (setup_repos and main) -/

/-- The per-repository collaborator answers one setup_repos iteration
observes: the clone_or_update_repo result, the update_workflow inputs, and
the create_pr_for_changes result. -/
structure RepoEnv where
  name : String
  cloneOk : Bool
  cloneStatus : String
  wfInput : WorkflowInput
  prOk : Bool
  prMsg : String

/-- The per-repository record setup_repos leaves behind: either the repo's
clone failed (recorded and skipped), or the repo was processed, with its
workflow result and, when changes were committed, its PR-creation result. -/
inductive RepoReport where
  | cloneFailed (name status : String)
  | processed (name status : String) (wf : WorkflowResult)
      (pr : Option (Bool × String))
deriving DecidableEq

/-- One iteration of the setup_repos loop (source lines 442-483): a clone
failure is recorded and ends only this repository's pipeline; otherwise the
workflow update runs, and a PR is attempted exactly when it committed
changes. -/
def processRepo (operatorEnv : String → Option String) (r : RepoEnv) :
    RepoReport :=
  if !r.cloneOk then
    RepoReport.cloneFailed r.name r.cloneStatus
  else
    let wf := (update_workflow operatorEnv r.wfInput).1
    RepoReport.processed r.name r.cloneStatus wf
      (if wf.has_changes then some (r.prOk, r.prMsg) else none)

/-- The setup_repos loop over the whole repository list: every repository is
processed in order, each from its own collaborator answers only. -/
def setup_repos (operatorEnv : String → Option String)
    (repos : List RepoEnv) : List RepoReport :=
  repos.map (processRepo operatorEnv)

/-- main (source lines 503-532): abort the whole run when the canonical
source workflow file does not exist, before any repository is touched;
otherwise run the pipeline over the repository list. -/
def mainRun (operatorEnv : String → Option String) (sourceExists : Bool)
    (repos : List RepoEnv) : Except String (List RepoReport) :=
  if !sourceExists then
    Except.error "Source workflow file not found"
  else
    Except.ok (setup_repos operatorEnv repos)

/-! ## Concrete fixtures, used only to evaluate the model at sample inputs -/

/-- The first four operations of every drift-path update_workflow trace. -/
def branchPrefixOps : List Op :=
  [Op.mkdirP wfDirPath, Op.checkoutCmd "main",
   Op.branchDeleteForce branch_name, Op.checkoutNewBranch branch_name]

/-- An operator environment carrying no git identity of its own. -/
def sampleEnv : String → Option String := fun _ => none

/-- Inputs of a run that finds drift (target file absent) and a non-empty
staged diff. -/
def sampleInputDrift : WorkflowInput :=
  ⟨⟨[], []⟩, [1, 2], "M .github/workflows/pcb-release.yml"⟩

/-- Inputs of a run that finds drift but an empty staged diff. -/
def sampleInputNoop : WorkflowInput := ⟨⟨[], []⟩, [1, 2], ""⟩

/-- Inputs of a run whose target file already matches the source and whose
working copy lacks the workflows directory entry. -/
def sampleInputClean : WorkflowInput :=
  ⟨⟨[], [(targetPath, [1, 2])]⟩, [1, 2], ""⟩

/-- A branch state with main and a stale feature branch from a prior run. -/
def sampleGit : GitState := ⟨[("main", 5), (branch_name, 3)], "main", 6⟩

/-- A reconciler environment whose forge already has an open PR on the
reserved branch and whose remote diff reports no difference. -/
def samplePREnv : PREnv :=
  ⟨Except.ok "", [(branch_name, "https://github.com/dioderobot/demo/pull/7")],
   "https://github.com/dioderobot/demo/pull/8"⟩

/-- The same forge state with a failing remote diff (remote branch absent). -/
def samplePREnvErr : PREnv :=
  ⟨Except.error (), [(branch_name, "https://github.com/dioderobot/demo/pull/7")],
   "https://github.com/dioderobot/demo/pull/8"⟩

/-- A repository whose clone fails. -/
def sampleRepoEnvFail : RepoEnv :=
  ⟨"demo", false, "failed: boom", sampleInputNoop, true, "url"⟩

/-! ## Helper lemmas -/

/-- Running the counting loop from any accumulator adds exactly one to the
sum of the three counters per classified check; unclassified checks add
nothing. -/
theorem rollup_go_totals (cs : List Check) (acc : Rollup) :
    (cs.foldl rollupStep acc).passed + (cs.foldl rollupStep acc).failed
        + (cs.foldl rollupStep acc).pending
      = acc.passed + acc.failed + acc.pending
        + cs.countP (fun c => (classifyCheck c).isSome) := by
  induction cs generalizing acc with
  | nil => simp
  | cons c cs ih =>
    rw [List.foldl_cons, ih, List.countP_cons]
    unfold rollupStep
    cases hc : classifyCheck c with
    | none => simp [hc]
    | some b => cases b <;> simp [hc] <;> omega

/-- The rollup of the empty check list is all zeroes. -/
theorem rollup_nil : rollup [] = ⟨0, 0, 0⟩ := rfl

/-! ## C1: rollup totals -/

/-- C1 (amended).  For any list of checks in which every check is actually
classified by the chain — its status is queued/in-progress, or its
conclusion is absent, or its (uppercased) conclusion is one of SUCCESS,
FAILURE, ERROR, CANCELLED, SKIPPED, TIMED_OUT, NEUTRAL — the computed
bucket counts satisfy passed + failed + pending = len(checks); and a check
whose conclusion is CANCELLED is counted in pending and never in passed.
The unrestricted totals equation of the original claim is refuted by
rollup_totals_counterexample: a check with any other terminal conclusion
(e.g. STALE) is counted in no bucket at all. -/
theorem rollup_totals_and_cancelled (checks : List Check)
    (h : ∀ c ∈ checks, (classifyCheck c).isSome = true) :
    (rollup checks).passed + (rollup checks).failed + (rollup checks).pending
      = checks.length
    ∧ ∀ c : Check, normConclusion c = some "CANCELLED" →
        classifyCheck c = some Bucket.pending := by
  constructor
  · have hgo := rollup_go_totals checks ⟨0, 0, 0⟩
    have hcount : checks.countP (fun c => (classifyCheck c).isSome)
        = checks.length := List.countP_eq_length.mpr h
    simpa [rollup, hcount] using hgo
  · intro c hc
    simp only [classifyCheck, hc]
    cases hq : (normStatus c == "QUEUED" || normStatus c == "IN_PROGRESS") with
    | true => simp [hq]
    | false => simp [hq]

/-- The original C1 totals equation fails on the code: a single check with
status COMPLETED and conclusion STALE falls through every branch of the
classification chain, so all three buckets stay zero while the check list
has length one. -/
theorem rollup_totals_counterexample :
    ¬ ((rollup [⟨some "COMPLETED", some "STALE"⟩]).passed
        + (rollup [⟨some "COMPLETED", some "STALE"⟩]).failed
        + (rollup [⟨some "COMPLETED", some "STALE"⟩]).pending
      = ([⟨some "COMPLETED", some "STALE"⟩] : List Check).length) := by
  decide

/-- Witness: the amended totals theorem evaluated on a concrete check list
containing a passed, a pending and a cancelled check. -/
theorem rollup_totals_witness :
    (∀ c ∈ ([⟨some "COMPLETED", some "SUCCESS"⟩, ⟨some "QUEUED", none⟩,
        ⟨some "COMPLETED", some "CANCELLED"⟩] : List Check),
      (classifyCheck c).isSome = true)
    ∧ (rollup [⟨some "COMPLETED", some "SUCCESS"⟩, ⟨some "QUEUED", none⟩,
          ⟨some "COMPLETED", some "CANCELLED"⟩]).passed
      + (rollup [⟨some "COMPLETED", some "SUCCESS"⟩, ⟨some "QUEUED", none⟩,
          ⟨some "COMPLETED", some "CANCELLED"⟩]).failed
      + (rollup [⟨some "COMPLETED", some "SUCCESS"⟩, ⟨some "QUEUED", none⟩,
          ⟨some "COMPLETED", some "CANCELLED"⟩]).pending
      = ([⟨some "COMPLETED", some "SUCCESS"⟩, ⟨some "QUEUED", none⟩,
          ⟨some "COMPLETED", some "CANCELLED"⟩] : List Check).length :=
  ⟨by decide,
   (rollup_totals_and_cancelled
     [⟨some "COMPLETED", some "SUCCESS"⟩, ⟨some "QUEUED", none⟩,
      ⟨some "COMPLETED", some "CANCELLED"⟩] (by decide)).1⟩

/-! ## C2: merge gate -/

/-- C2.  The merge decision of merge_passing_prs is exactly
canMerge(PR) = PR.isOpen and PR.isMergeable and failed = 0 and pending = 0
and passed > 0, and a merge request is issued exactly when that decision is
true; in particular no merge is issued when pending > 0, when failed > 0, or
when the check list is empty (then passed = 0, so passed > 0 cannot hold
anyway). -/
theorem merge_gate_characterization (pr : PRData) :
    (mergeIssued pr = true ↔ canMergeSpec pr)
    ∧ (0 < (rollup pr.statusCheckRollup).pending → mergeIssued pr = false)
    ∧ (0 < (rollup pr.statusCheckRollup).failed → mergeIssued pr = false)
    ∧ (pr.statusCheckRollup = [] → mergeIssued pr = false) := by
  have hmain : mergeIssued pr = true ↔ canMergeSpec pr := by
    by_cases hs : pyUpper (pr.state.getD "UNKNOWN") = "OPEN"
    · by_cases hm : pyUpper (pr.mergeable.getD "UNKNOWN") = "MERGEABLE"
      · cases hck : pr.statusCheckRollup with
        | nil => simp [mergeIssued, canMergeSpec, hs, hm, hck, rollup]
        | cons c cs =>
          simp [mergeIssued, canMergeSpec, hs, hm, hck, and_assoc]
      · simp [mergeIssued, canMergeSpec, hs, hm]
    · simp [mergeIssued, canMergeSpec, hs]
  refine ⟨hmain, ?_, ?_, ?_⟩
  · intro hpe
    cases hmi : mergeIssued pr with
    | false => rfl
    | true =>
      have := (hmain.mp hmi).2.2.2.1
      omega
  · intro hf
    cases hmi : mergeIssued pr with
    | false => rfl
    | true =>
      have := (hmain.mp hmi).2.2.1
      omega
  · intro hnil
    cases hmi : mergeIssued pr with
    | false => rfl
    | true =>
      have := (hmain.mp hmi).2.2.2.2
      rw [hnil, rollup_nil] at this
      exact absurd this (by decide)

/-- Witness: the merge gate evaluated on a concrete open, mergeable PR with
one successful check (merge issued) via the characterization. -/
theorem merge_gate_witness :
    mergeIssued ⟨some "OPEN", some "MERGEABLE",
      [⟨some "COMPLETED", some "SUCCESS"⟩]⟩ = true :=
  (merge_gate_characterization
    ⟨some "OPEN", some "MERGEABLE",
      [⟨some "COMPLETED", some "SUCCESS"⟩]⟩).1.mpr
    ⟨by decide, by decide, by decide, by decide, by decide⟩

/-! ## C3: drift detection -/

/-- C3.  The drift decision is exact byte equality: for canonical bytes A
and present working-copy bytes B, needsUpdate A (some B) holds exactly when
A differs from B, and an absent target file always needs an update. -/
theorem drift_detection_correct (A B : List Nat) :
    (needsUpdate A (some B) = true ↔ A ≠ B)
    ∧ needsUpdate A none = true := by
  constructor
  · simp [needsUpdate]
  · rfl

/-- Witness: the drift detector evaluated at concrete differing bytes via
the correctness theorem. -/
theorem drift_detection_witness : needsUpdate [0] (some [1]) = true :=
  (drift_detection_correct [0] [1]).1.mpr (by decide)

/-! ## C4 and C5: PR reconciler -/

/-- Characters of a list before the first space are the whole list when the
list has no space, even with a space appended after it. -/
theorem takeWhile_append_space (l r : List Char)
    (h : ∀ c ∈ l, (c != ' ') = true) :
    (l ++ ' ' :: r).takeWhile (fun c => c != ' ') = l := by
  induction l with
  | nil => simp [List.takeWhile]
  | cons a l ih =>
    have ha := h a (List.mem_cons_self a l)
    simp only [List.cons_append, List.takeWhile_cons, ha, if_true]
    rw [ih fun c hc => h c (List.mem_cons_of_mem a hc)]

/-- Splitting a reconciler message at the first space recovers the url when
the url itself has no space. -/
theorem cleanUrl_append (url msg : String)
    (h : ∀ c ∈ url.data, (c != ' ') = true) :
    cleanUrl (url ++ " " ++ msg) = url := by
  unfold cleanUrl
  have hdata : (url ++ " " ++ msg).data = url.data ++ ' ' :: msg.data := by
    simp
  rw [hdata, takeWhile_append_space url.data msg.data h]

/-- When the forge already lists an open PR with the reserved head branch,
create_pr_for_changes returns that PR's url (followed by a parenthetical
status note) and issues no PR creation operation. -/
theorem reconciler_reuses_existing (env : PREnv) (url : String)
    (rest : List String)
    (h1 : listOpenByHead env = url :: rest)
    (hs : ∀ c ∈ url.data, (c != ' ') = true) :
    cleanUrl (create_pr_for_changes env).1.2 = url
    ∧ (create_pr_for_changes env).2.filter isCreateOp = [] := by
  unfold create_pr_for_changes
  rw [h1]
  cases hb : branchDiffers env.remoteDiff <;>
    exact ⟨cleanUrl_append url _ hs, by simp [isCreateOp]⟩

/-- C4.  With an already-open PR whose head is the reserved branch name, the
reconciler returns that PR's handle (the url before the status note) and
creates no new PR; two consecutive runs against the same repository, both
seeing that open PR, therefore return the same handle. -/
theorem pr_reconciler_idempotent (env envNext : PREnv) (url : String)
    (rest rest2 : List String)
    (h1 : listOpenByHead env = url :: rest)
    (h2 : listOpenByHead envNext = url :: rest2)
    (hs : ∀ c ∈ url.data, (c != ' ') = true) :
    cleanUrl (create_pr_for_changes env).1.2 = url
    ∧ cleanUrl (create_pr_for_changes envNext).1.2 = url
    ∧ (create_pr_for_changes env).2.filter isCreateOp = []
    ∧ (create_pr_for_changes envNext).2.filter isCreateOp = [] :=
  ⟨(reconciler_reuses_existing env url rest h1 hs).1,
   (reconciler_reuses_existing envNext url rest2 h2 hs).1,
   (reconciler_reuses_existing env url rest h1 hs).2,
   (reconciler_reuses_existing envNext url rest2 h2 hs).2⟩

/-- Witness: the reconciler evaluated on a concrete forge state holding one
open PR on the reserved branch, for a run whose remote diff is empty and a
following run whose remote diff fails. -/
theorem pr_reconciler_witness :
    listOpenByHead samplePREnv = ["https://github.com/dioderobot/demo/pull/7"]
    ∧ cleanUrl (create_pr_for_changes samplePREnv).1.2
        = "https://github.com/dioderobot/demo/pull/7"
    ∧ cleanUrl (create_pr_for_changes samplePREnvErr).1.2
        = "https://github.com/dioderobot/demo/pull/7" :=
  ⟨by decide,
   (pr_reconciler_idempotent samplePREnv samplePREnvErr
     "https://github.com/dioderobot/demo/pull/7" [] [] (by decide) (by decide)
     (by decide)).1,
   (pr_reconciler_idempotent samplePREnv samplePREnvErr
     "https://github.com/dioderobot/demo/pull/7" [] [] (by decide) (by decide)
     (by decide)).2.1⟩

/-- C5.  create_pr_for_changes force-pushes the feature branch if and only
if branchDiffers holds, i.e. the branch-vs-remote diff printed something or
failed (remote branch absent counts as differing); the push command issued
carries the force-with-lease flag. -/
theorem force_push_iff_differs (env : PREnv) :
    ((create_pr_for_changes env).2.filter isPushOp
      = if branchDiffers env.remoteDiff then
          [ForgeOp.forcePushWithLease "origin" branch_name]
        else [])
    ∧ (∀ e : Unit, env.remoteDiff = Except.error e →
        branchDiffers env.remoteDiff = true)
    ∧ "--force-with-lease"
        ∈ renderForgeOp (ForgeOp.forcePushWithLease "origin" branch_name) := by
  refine ⟨?_, ?_, by simp [renderForgeOp]⟩
  · unfold create_pr_for_changes
    cases hm : listOpenByHead env <;>
      cases hb : branchDiffers env.remoteDiff <;>
        simp [hb, isPushOp]
  · intro e he
    simp [branchDiffers, he]

/-- Witness: the push decision evaluated on the concrete environment whose
remote diff fails, via the characterization. -/
theorem force_push_witness : branchDiffers samplePREnvErr.remoteDiff = true :=
  (force_push_iff_differs samplePREnvErr).2.1 () rfl

/-! ## C6, C7, C8: branch/commit sequencer -/

/-- Deleting a branch removes it from the branch map. -/
theorem lookupBranch_filter_self (b : String) (l : List (String × Nat)) :
    lookupBranch b (l.filter fun p => p.1 != b) = none := by
  induction l with
  | nil => rfl
  | cons p l ih =>
    simp only [List.filter_cons]
    by_cases hp : p.1 = b
    · simp [hp, ih]
    · simp [hp, lookupBranch, ih]

/-- Deleting a branch leaves every other branch's tip unchanged. -/
theorem lookupBranch_filter_ne (b k : String) (l : List (String × Nat))
    (h : k ≠ b) :
    lookupBranch k (l.filter fun p => p.1 != b) = lookupBranch k l := by
  induction l with
  | nil => rfl
  | cons p l ih =>
    simp only [List.filter_cons]
    by_cases hp : p.1 = b
    · simp [hp, lookupBranch, Ne.symm h, ih]
    · simp [hp, lookupBranch, ih]

/-- Unfolding step of the branch map lookup. -/
theorem lookupBranch_cons (b : String) (p : String × Nat)
    (l : List (String × Nat)) :
    lookupBranch b (p :: l) = if p.1 = b then some p.2 else lookupBranch b l :=
  rfl

/-- C6.  A commit operation appears in the update_workflow trace exactly
when the run is on the drift path and the staged diff is non-empty, and
every commit it creates carries the fixed message with author and committer
both fixed to Diode Robot, info@diode.run, whatever git identity the
operator environment holds; in that case the result is the updated outcome
with has_changes = true. -/
theorem commit_identity_and_guard (operatorEnv : String → Option String)
    (inp : WorkflowInput) :
    (commitOps (update_workflow operatorEnv inp).2
      = if needsUpdate inp.sourceBytes (lookupPath targetPath inp.wc.files)
            && !(pyStrip inp.stagedStdout).isEmpty then
          [(commitMessage, serviceName, serviceEmail, serviceName,
            serviceEmail)]
        else [])
    ∧ (needsUpdate inp.sourceBytes (lookupPath targetPath inp.wc.files)
          = true →
        (pyStrip inp.stagedStdout).isEmpty = false →
        (update_workflow operatorEnv inp).1
          = ⟨true, "workflow updated & committed", true⟩) := by
  cases hnu : needsUpdate inp.sourceBytes (lookupPath targetPath inp.wc.files) with
  | false =>
    refine ⟨?_, fun h => absurd h (by decide)⟩
    simp [update_workflow, hnu, commitOps]
  | true =>
    cases hst : (pyStrip inp.stagedStdout).isEmpty with
    | false =>
      refine ⟨?_, fun _ _ => by simp [update_workflow, hnu, hst]⟩
      simp [update_workflow, hnu, hst, commitOps, gitEnv]
    | true =>
      refine ⟨?_, fun _ h => absurd h (by decide)⟩
      simp [update_workflow, hnu, hst, commitOps]

/-- Witness: the commit guard and fixed identity evaluated on the concrete
drift inputs with a non-empty staged diff. -/
theorem commit_identity_witness :
    needsUpdate sampleInputDrift.sourceBytes
        (lookupPath targetPath sampleInputDrift.wc.files) = true
    ∧ (pyStrip sampleInputDrift.stagedStdout).isEmpty = false
    ∧ (update_workflow sampleEnv sampleInputDrift).1
        = ⟨true, "workflow updated & committed", true⟩ :=
  ⟨by decide, by decide,
   (commit_identity_and_guard sampleEnv sampleInputDrift).2 (by decide)
     (by decide)⟩

/-- C7.  On the no-op path (drift was detected but staging produced no
diff), update_workflow reports the up-to-date outcome with
has_changes = false, and running its trace from any starting branch state
leaves the working copy checked out on main with no local branch of the
reserved name. -/
theorem noop_revert_branch_clean (operatorEnv : String → Option String)
    (inp : WorkflowInput)
    (h1 : needsUpdate inp.sourceBytes (lookupPath targetPath inp.wc.files)
        = true)
    (h2 : (pyStrip inp.stagedStdout).isEmpty = true) :
    (update_workflow operatorEnv inp).1 = ⟨true, "workflow up to date", false⟩
    ∧ ∀ st : GitState,
        (execGit st (update_workflow operatorEnv inp).2).current = "main"
        ∧ lookupBranch branch_name
            (execGit st (update_workflow operatorEnv inp).2).branches
          = none := by
  have htr : (update_workflow operatorEnv inp).2
      = [Op.mkdirP wfDirPath, Op.checkoutCmd "main",
         Op.branchDeleteForce branch_name, Op.checkoutNewBranch branch_name,
         Op.copyFile targetPath inp.sourceBytes,
         Op.addPath ".github/workflows/pcb-release.yml",
         Op.checkoutCmd "main", Op.branchDelete branch_name] := by
    simp [update_workflow, h1, h2]
  refine ⟨by simp [update_workflow, h1, h2], fun st => ?_⟩
  rw [htr]
  have hexec : execGit st
      [Op.mkdirP wfDirPath, Op.checkoutCmd "main",
       Op.branchDeleteForce branch_name, Op.checkoutNewBranch branch_name,
       Op.copyFile targetPath inp.sourceBytes,
       Op.addPath ".github/workflows/pcb-release.yml",
       Op.checkoutCmd "main", Op.branchDelete branch_name]
      = ⟨((branch_name, (lookupBranch "main"
            (st.branches.filter fun p => p.1 != branch_name)).getD 0)
          :: (st.branches.filter fun p => p.1 != branch_name)).filter
            (fun p => p.1 != branch_name),
         "main", st.nextId⟩ := rfl
  rw [hexec]
  exact ⟨rfl, lookupBranch_filter_self branch_name _⟩

/-- Witness: the no-op revert evaluated on concrete inputs and a concrete
branch state that still holds a stale feature branch. -/
theorem noop_revert_witness :
    needsUpdate sampleInputNoop.sourceBytes
        (lookupPath targetPath sampleInputNoop.wc.files) = true
    ∧ (pyStrip sampleInputNoop.stagedStdout).isEmpty = true
    ∧ (execGit sampleGit (update_workflow sampleEnv sampleInputNoop).2).current
        = "main"
    ∧ lookupBranch branch_name
        (execGit sampleGit (update_workflow sampleEnv sampleInputNoop).2).branches
      = none :=
  ⟨by decide, by decide,
   ((noop_revert_branch_clean sampleEnv sampleInputNoop (by decide)
       (by decide)).2 sampleGit).1,
   ((noop_revert_branch_clean sampleEnv sampleInputNoop (by decide)
       (by decide)).2 sampleGit).2⟩

/-- C8.  Every drift-path trace starts with checkout main, unchecked
force-delete of the reserved branch, and creation of a fresh reserved
branch; running that prefix from any branch state whatever (the reserved
branch may or may not exist before, so its absence is non-fatal) checks out
the reserved branch at the current tip of main, with any prior entry of the
reserved name removed. -/
theorem branch_created_fresh (operatorEnv : String → Option String)
    (inp : WorkflowInput)
    (h1 : needsUpdate inp.sourceBytes (lookupPath targetPath inp.wc.files)
        = true) :
    (∃ rest, (update_workflow operatorEnv inp).2 = branchPrefixOps ++ rest)
    ∧ ∀ (st : GitState) (m : Nat),
        lookupBranch "main" st.branches = some m →
        (execGit st branchPrefixOps).current = branch_name
        ∧ lookupBranch branch_name (execGit st branchPrefixOps).branches
            = some m
        ∧ lookupBranch "main" (execGit st branchPrefixOps).branches = some m
        ∧ (execGit st branchPrefixOps).branches
            = (branch_name, m)
              :: (st.branches.filter fun p => p.1 != branch_name) := by
  constructor
  · cases hst : (pyStrip inp.stagedStdout).isEmpty with
    | false =>
      refine ⟨[Op.copyFile targetPath inp.sourceBytes,
        Op.addPath ".github/workflows/pcb-release.yml",
        Op.commitCmd commitMessage serviceName serviceEmail serviceName
          serviceEmail], ?_⟩
      simp [update_workflow, h1, hst, branchPrefixOps, gitEnv]
    | true =>
      refine ⟨[Op.copyFile targetPath inp.sourceBytes,
        Op.addPath ".github/workflows/pcb-release.yml",
        Op.checkoutCmd "main", Op.branchDelete branch_name], ?_⟩
      simp [update_workflow, h1, hst, branchPrefixOps]
  · intro st m hm
    have hmain : lookupBranch "main"
        (st.branches.filter fun p => p.1 != branch_name) = some m := by
      rw [lookupBranch_filter_ne branch_name "main" st.branches (by decide)]
      exact hm
    have hexec : execGit st branchPrefixOps
        = ⟨(branch_name, (lookupBranch "main"
              (st.branches.filter fun p => p.1 != branch_name)).getD 0)
            :: (st.branches.filter fun p => p.1 != branch_name),
           branch_name, st.nextId⟩ := rfl
    rw [hmain] at hexec
    simp only [Option.getD_some] at hexec
    rw [hexec]
    refine ⟨rfl, ?_, ?_, rfl⟩
    · rw [lookupBranch_cons, if_pos rfl]
    · rw [lookupBranch_cons, if_neg (show branch_name ≠ "main" by decide)]
      exact hmain

/-- Witness: the fresh-branch invariant evaluated on the concrete drift
inputs and the concrete branch state holding a stale feature branch at an
old commit: the new branch points at the tip of main, not at the stale
commit. -/
theorem branch_created_witness :
    needsUpdate sampleInputDrift.sourceBytes
        (lookupPath targetPath sampleInputDrift.wc.files) = true
    ∧ lookupBranch "main" sampleGit.branches = some 5
    ∧ lookupBranch branch_name (execGit sampleGit branchPrefixOps).branches
        = some 5 :=
  ⟨by decide, by decide,
   ((branch_created_fresh sampleEnv sampleInputDrift (by decide)).2 sampleGit 5
     (by decide)).2.1⟩

/-! ## C9: pipeline boundary -/

/-- C9.  A missing canonical source file aborts the whole run with an error
before any repository is processed; otherwise the run processes every
repository of the list: the report list decomposes around any one
repository into the reports of the repositories before it, its own report,
and the reports of the repositories after it — each computed from that
repository's own collaborator answers only, so one repository's failure
cannot abort the others — a clone failure being recorded as that
repository's report; and the run always produces exactly one report per
repository. -/
theorem per_repo_error_isolation (operatorEnv : String → Option String)
    (sourceExists : Bool) (repos : List RepoEnv) :
    (sourceExists = false →
      mainRun operatorEnv sourceExists repos
        = Except.error "Source workflow file not found")
    ∧ (sourceExists = true →
      mainRun operatorEnv sourceExists repos
        = Except.ok (setup_repos operatorEnv repos))
    ∧ (∀ (pre : List RepoEnv) (r : RepoEnv) (post : List RepoEnv),
        repos = pre ++ r :: post →
        setup_repos operatorEnv repos
          = setup_repos operatorEnv pre
            ++ processRepo operatorEnv r :: setup_repos operatorEnv post)
    ∧ (∀ r : RepoEnv, r.cloneOk = false →
        processRepo operatorEnv r
          = RepoReport.cloneFailed r.name r.cloneStatus)
    ∧ (setup_repos operatorEnv repos).length = repos.length := by
  refine ⟨fun h => by simp [mainRun, h], fun h => by simp [mainRun, h],
    ?_, ?_, by simp [setup_repos]⟩
  · intro pre r post hr
    subst hr
    simp [setup_repos]
  · intro r hr
    simp [processRepo, hr]

/-- Witness: the pipeline boundary evaluated at concrete inputs: a missing
source aborts with the error, and a repository whose clone fails is
recorded as a clone failure. -/
theorem per_repo_error_witness :
    mainRun sampleEnv false [sampleRepoEnvFail]
      = Except.error "Source workflow file not found"
    ∧ processRepo sampleEnv sampleRepoEnvFail
      = RepoReport.cloneFailed "demo" "failed: boom" :=
  ⟨(per_repo_error_isolation sampleEnv false [sampleRepoEnvFail]).1 rfl,
   (per_repo_error_isolation sampleEnv false [sampleRepoEnvFail]).2.2.2.1
     sampleRepoEnvFail rfl⟩

/-! ## C10: up-to-date frame effect -/

/-- The directory being created is in the directory set mkdir leaves
behind. -/
theorem mem_addDir_self (d : List String) (dirs : List (List String)) :
    d ∈ addDir d dirs := by
  unfold addDir
  split
  · assumption
  · exact List.mem_cons_self d dirs

/-- C10.  When the target workflow file is byte-identical to the source,
the whole update_workflow trace is the single mkdir of .github/workflows —
it precedes the drift comparison and nothing else runs — and the result is
the up-to-date outcome; interpreting the trace on any working copy leaves
every file unchanged, puts the workflows directory in the directory set,
and, when that directory was absent, mutates the directory set. -/
theorem uptodate_frame_mkdir (operatorEnv : String → Option String)
    (inp : WorkflowInput)
    (h : needsUpdate inp.sourceBytes (lookupPath targetPath inp.wc.files)
        = false) :
    (update_workflow operatorEnv inp).2 = [Op.mkdirP wfDirPath]
    ∧ (update_workflow operatorEnv inp).1
        = ⟨true, "workflow up to date", false⟩
    ∧ ∀ wc : WorkingCopy,
        (execWc wc (update_workflow operatorEnv inp).2).files = wc.files
        ∧ wfDirPath ∈ (execWc wc (update_workflow operatorEnv inp).2).dirs
        ∧ (wfDirPath ∉ wc.dirs →
            (execWc wc (update_workflow operatorEnv inp).2).dirs ≠ wc.dirs) := by
  have htr : (update_workflow operatorEnv inp).2 = [Op.mkdirP wfDirPath] := by
    simp [update_workflow, h]
  refine ⟨htr, by simp [update_workflow, h], fun wc => ?_⟩
  rw [htr]
  have hexec : execWc wc [Op.mkdirP wfDirPath]
      = ⟨addDir wfDirPath (addDir [".github"] wc.dirs), wc.files⟩ := rfl
  rw [hexec]
  have hmem : wfDirPath ∈ addDir wfDirPath (addDir [".github"] wc.dirs) :=
    mem_addDir_self wfDirPath _
  refine ⟨rfl, hmem, fun habs heq => habs ?_⟩
  rw [show wc.dirs = (⟨addDir wfDirPath (addDir [".github"] wc.dirs),
    wc.files⟩ : WorkingCopy).dirs from congrArg WorkingCopy.dirs
      (congrArg (fun d => WorkingCopy.mk d wc.files) heq.symm)]
  exact hmem

/-- Witness: the frame effect evaluated on the concrete clean inputs whose
working copy lacks the workflows directory: the trace is the single mkdir,
files are untouched, and the directory set is mutated. -/
theorem uptodate_frame_witness :
    needsUpdate sampleInputClean.sourceBytes
        (lookupPath targetPath sampleInputClean.wc.files) = false
    ∧ (update_workflow sampleEnv sampleInputClean).2 = [Op.mkdirP wfDirPath]
    ∧ (execWc sampleInputClean.wc
        (update_workflow sampleEnv sampleInputClean).2).files
      = sampleInputClean.wc.files :=
  ⟨by decide,
   (uptodate_frame_mkdir sampleEnv sampleInputClean (by decide)).1,
   ((uptodate_frame_mkdir sampleEnv sampleInputClean (by decide)).2.2
     sampleInputClean.wc).1⟩

end UpdateRepos
